import Mathlib

/-!
Shallow embedding of the rapid-studio swipe-deck component
(`src/unnamed/part_009`, the primary `SwipeDeck` with rating batching and
tier-based prefetch) and of the simpler deck in
`src/rapid-studio-clean/components/SwipeDeck.tsx`.

Machine numbers (gesture displacements, velocities, interpolated rotation)
are modelled as rationals; timestamps as integers; list state as Lean lists.
Side effects that are purely cosmetic in the source (haptics, animation
timing curves, console logging) are not modelled; the animation *target*
values set by the gesture handlers are modelled, since the spec speaks
about the transform the card returns to.
-/

/-- Content tier of an image (`ImageData.tier` in part_009). -/
inductive Tier
  | universal
  | demographic
  | personal
  deriving DecidableEq, Repr

/-- The tier priority table from `aggressivePrefetch` in part_009:
`{ personal: 3, demographic: 2, universal: 1 }`. -/
def tierPriority : Tier → ℤ
  | Tier.personal => 3
  | Tier.demographic => 2
  | Tier.universal => 1

/-- Structure `ImageData` from part_009 (the opaque `metadata` record is unused by the
component logic and is omitted). -/
structure ImageData where
  id : String
  url : String
  prompt : Option String
  tier : Tier
  deriving DecidableEq, Repr

/-- Swipe direction. -/
inductive Direction
  | left
  | right
  deriving DecidableEq, Repr

/-- Structure `SwipeRating` from part_009. In the source the `tier` field is typed as a
string but always holds the tier of the current image. -/
structure SwipeRating where
  imageId : String
  direction : Direction
  timestamp : ℤ
  swipeVelocity : ℚ
  confidence : ℚ
  hesitationTime : ℤ
  tier : Tier
  deriving DecidableEq, Repr

/-- Constant `SWIPE_THRESHOLD = SCREEN_WIDTH * 0.25` from part_009. -/
def SWIPE_THRESHOLD (screenWidth : ℚ) : ℚ := screenWidth * (25 / 100)

/-- JavaScript `Math.abs` on rationals, written as a conditional so that it
evaluates by kernel reduction. -/
def jsAbs (x : ℚ) : ℚ := if x < 0 then -x else x

/-- Function `jsAbs` agrees with the mathematical absolute value. -/
theorem jsAbs_eq_abs (x : ℚ) : jsAbs x = |x| := by
  unfold jsAbs
  by_cases h : x < 0
  · rw [if_pos h, abs_of_neg h]
  · rw [if_neg h, abs_of_nonneg (not_lt.mp h)]

/-- The `SwipeRating` constructed inside `handleSwipeComplete` (part_009
lines 125–133): `swipeVelocity = Math.abs(velocity)`,
`confidence = Math.min(1, Math.abs(velocity) / 1000)` (the smaller of the
two arguments, written out as a conditional so that it evaluates),
`hesitationTime = swipeEndTime - swipeStartTime`. -/
def mkSwipeRating (currentImage : ImageData) (direction : Direction)
    (velocity : ℚ) (swipeStartTime swipeEndTime : ℤ) : SwipeRating :=
  { imageId := currentImage.id
    direction := direction
    timestamp := swipeEndTime
    swipeVelocity := jsAbs velocity
    confidence := if jsAbs velocity / 1000 ≤ 1 then jsAbs velocity / 1000 else 1
    hesitationTime := swipeEndTime - swipeStartTime
    tier := currentImage.tier }

/-- The `setRatingBatch` updater in `handleSwipeComplete` (part_009 lines
136–146) together with its flush side effect.  Returns
`(stored batch after the step, ratings passed to onSwipe during the step)`.
The source appends the new rating, and when the batch length reaches 10 it
calls `onSwipe(rating)` — passing only the latest rating — and stores `[]`. -/
def batchStep (prev : List SwipeRating) (rating : SwipeRating) :
    List SwipeRating × List SwipeRating :=
  let newBatch := prev ++ [rating]
  if 10 ≤ newBatch.length then ([], [rating]) else (newBatch, [])

/-- The component state mutated by `handleSwipeComplete` in part_009. -/
structure DeckState where
  currentIndex : ℕ
  ratingBatch : List SwipeRating
  totalSwipes : ℕ
  deriving DecidableEq, Repr

/-- Function `handleSwipeComplete` from part_009 (lines 117–165) as a state
transition.  If `images[currentIndex]` is missing the handler returns early
(`if (!currentImage) return;`), leaving all state unchanged and emitting
nothing; otherwise it builds the rating, runs the batch step, and advances
`currentIndex` by one.  The second component is the list of ratings emitted
to `onSwipe`. -/
def handleSwipeComplete (images : List ImageData) (direction : Direction)
    (velocity : ℚ) (swipeStartTime swipeEndTime : ℤ) (s : DeckState) :
    DeckState × List SwipeRating :=
  match images[s.currentIndex]? with
  | none => (s, [])
  | some currentImage =>
      let rating := mkSwipeRating currentImage direction velocity
        swipeStartTime swipeEndTime
      let step := batchStep s.ratingBatch rating
      ({ currentIndex := s.currentIndex + 1
         ratingBatch := step.1
         totalSwipes := s.totalSwipes + 1 }, step.2)

/-- One committed swipe as seen by `handleSwipeComplete`. -/
structure SwipeEvent where
  direction : Direction
  velocity : ℚ
  startTime : ℤ
  endTime : ℤ
  deriving DecidableEq, Repr

/-- Fold a sequence of committed swipes through `handleSwipeComplete`,
collecting every rating emitted to `onSwipe` along the run. -/
def runSwipes (images : List ImageData) (events : List SwipeEvent)
    (s : DeckState) : DeckState × List SwipeRating :=
  events.foldl
    (fun acc ev =>
      let step := handleSwipeComplete images ev.direction ev.velocity
        ev.startTime ev.endTime acc.1
      (step.1, acc.2 ++ step.2))
    (s, [])

/-- A pan-gesture release event (`onEnd` receives `translationX`,
`translationY`, `velocityX`). -/
structure GestureEndEvent where
  translationX : ℚ
  translationY : ℚ
  velocityX : ℚ
  deriving DecidableEq, Repr

/-- The card transform targets set by the gesture handlers (translateX,
translateY, rotation in degrees, scale). -/
structure TransformTargets where
  translateX : ℚ
  translateY : ℚ
  rotation : ℚ
  scale : ℚ
  deriving DecidableEq, Repr

/-- The identity transform the card snaps back to: zero translation and
rotation, unit scale. -/
def identityTransform : TransformTargets :=
  { translateX := 0, translateY := 0, rotation := 0, scale := 1 }

/-- Handler `panGesture.onEnd` from part_009 (lines 187–209).  The commit test is
`Math.abs(event.translationX) > SWIPE_THRESHOLD` (strict).  On commit it
animates the card off screen (target `±1.5 * SCREEN_WIDTH`, rotation `±45`,
scale `0.8`) and emits one decision `(direction, velocityX)` with
`direction = translationX > 0 ? right : left`; otherwise it springs every
transform back to the identity and emits nothing. -/
def panGestureOnEnd (screenWidth : ℚ) (e : GestureEndEvent) :
    Option (Direction × ℚ) × TransformTargets :=
  if SWIPE_THRESHOLD screenWidth < jsAbs e.translationX then
    let direction := if 0 < e.translationX then Direction.right else Direction.left
    let targetX := if direction = Direction.right
      then screenWidth * (15 / 10) else -(screenWidth * (15 / 10))
    (some (direction, e.velocityX),
      { translateX := targetX
        translateY := e.translationY * 2
        rotation := if direction = Direction.right then 45 else -45
        scale := 8 / 10 })
  else
    (none, identityTransform)

/-- The direction the code assigns from the sign of the displacement:
right for positive `dx`, left otherwise. -/
def signDirection (x : ℚ) : Direction :=
  if 0 < x then Direction.right else Direction.left

/-- One linear segment of reanimated `interpolate`: map `x` from
`[x0, x1]` onto `[y0, y1]`. -/
def interpolateSeg (x x0 x1 y0 y1 : ℚ) : ℚ :=
  y0 + (x - x0) * (y1 - y0) / (x1 - x0)

/-- The rotation set by `panGesture.onUpdate` in part_009 (lines 177–181):
`interpolate(translationX, [-SCREEN_WIDTH, 0, SCREEN_WIDTH], [-30, 0, 30])`
with no extrapolation config, so the reanimated default EXTEND applies: past
either end of the input range the line of the edge segment is extended. -/
def rotationP009 (screenWidth x : ℚ) : ℚ :=
  if x < 0 then interpolateSeg x (-screenWidth) 0 (-30) 0
  else interpolateSeg x 0 screenWidth 0 30

/-- The rotation set by `gestureHandler.onActive` in
rapid-studio-clean/components/SwipeDeck.tsx (lines 115–124):
`interpolate(translationX, [-screenWidth, screenWidth], [-30, 30],
Extrapolate.CLAMP)` — outside the input range the output is pinned to the
corresponding edge value. -/
def rotationClean (screenWidth x : ℚ) : ℚ :=
  if x ≤ -screenWidth then -30
  else if screenWidth ≤ x then 30
  else interpolateSeg x (-screenWidth) screenWidth (-30) 30

/-- JavaScript `Array.prototype.slice(s, e)` for list arguments with
`0 ≤ s`: the elements at positions `s, …, e-1`. -/
def jsSlice (l : List α) (s e : ℕ) : List α := (l.take e).drop s

/-- The comparator of `aggressivePrefetch` in part_009
(`(a, b) => tierPriority[b.tier] - tierPriority[a.tier]`), as the
"may come first" boolean relation of the stable sort it induces:
`a` may precede `b` iff `tierPriority b.tier ≤ tierPriority a.tier`. -/
def tierGE (a b : ImageData) : Bool :=
  decide (tierPriority b.tier ≤ tierPriority a.tier)

/-- Function `aggressivePrefetch` from part_009 (lines 69–95): slice the deck from
`max 0 currentIndex` (here the index is a natural number) to
`min images.length (currentIndex + prefetchBuffer)` and stable-sort it by
descending tier priority; prefetch requests are then issued in the order of
this list. -/
def prefetchOrder (images : List ImageData) (currentIndex N : ℕ) :
    List ImageData :=
  (jsSlice images currentIndex (min images.length (currentIndex + N))).mergeSort
    tierGE

/-- Modelled from the spec, its own words, for claim C4 only (the source has no
cache bookkeeping): the lookahead window minus the items already confirmed
cached. -/
def specPrefetchSet (images : List ImageData) (currentIndex N : ℕ)
    (cached : List String) : List ImageData :=
  (jsSlice images currentIndex (min images.length (currentIndex + N))).filter
    (fun img => decide (img.id ∉ cached))

/-- The guard of the low-buffer effect in part_009 (lines 98–102):
`images.length - currentIndex <= 10` over JavaScript numbers. -/
def needMoreTrigger (imagesLen currentIndex : ℕ) : Bool :=
  decide ((imagesLen : ℤ) - (currentIndex : ℤ) ≤ 10)

/-- Number of `onNeedMoreImages` calls over a trace of effect runs: the
effect body runs once per change of `(currentIndex, images.length)` and
fires exactly when the guard holds.  `indexTrace` lists the value of
`currentIndex` at each run, for a fixed deck length. -/
def needMoreSignals (imagesLen : ℕ) (indexTrace : List ℕ) : ℕ :=
  (indexTrace.filter (fun i => needMoreTrigger imagesLen i)).length

/-- The index update in `handleSwipeComplete` of part_009 (line 157):
`setCurrentIndex(prev => prev + 1)`. -/
def advanceIndexP009 (i : ℕ) : ℕ := i + 1

/-- The index update in `onSwipeComplete` of
rapid-studio-clean/components/SwipeDeck.tsx (lines 94–102), also used by
`SafeSwipeDeck` (lines 398–410): advance while not at the last card,
otherwise reset to 0 (reload / re-show the deck). -/
def nextIndexClean (imagesLen i : ℕ) : ℕ :=
  if i < imagesLen - 1 then i + 1 else 0

/-- A deck image with a numbered id, for concrete runs. -/
def demoImage (n : ℕ) : ImageData :=
  { id := toString n, url := toString n, prompt := none, tier := Tier.universal }

/-- A concrete ten-image deck. -/
def demoDeck : List ImageData := (List.range 10).map demoImage

/-- A concrete committed swipe with velocity and end time `n`. -/
def demoEvent (n : ℕ) : SwipeEvent :=
  { direction := Direction.right, velocity := (n : ℚ), startTime := 0,
    endTime := (n : ℤ) }

/-- Ten concrete committed swipes. -/
def demoEvents : List SwipeEvent := (List.range 10).map demoEvent

/-- A concrete personal-tier image used in counterexamples. -/
def imgA : ImageData :=
  { id := "a", url := "u", prompt := none, tier := Tier.personal }

/-- A concrete rating used to exercise the batch step. -/
def demoRating : SwipeRating := mkSwipeRating imgA Direction.right 0 0 0

/-- Claim C1: the spec says that when the decision count reaches the batch
threshold of 10 the entire accumulated batch — all 10 Decisions in FIFO
order — is flushed as one unit to the rating consumer, with the buffer empty
afterwards.  Evaluating `handleSwipeComplete` of part_009 over a run of
exactly 10 committed swipes shows the buffer is indeed cleared at the
threshold, but the flush passes only the single latest Decision to
`onSwipe`: the emission list has length 1, not 10, although ten distinct
ratings were produced — the first nine Decisions are silently dropped,
contradicting the comment in the source itself, "Submit batch every 10 ratings". -/
theorem c1_flush_passes_only_last_rating :
    (runSwipes demoDeck demoEvents ⟨0, [], 0⟩).1.ratingBatch = [] ∧
    (runSwipes demoDeck demoEvents ⟨0, [], 0⟩).1.currentIndex = 10 ∧
    ((runSwipes demoDeck demoEvents ⟨0, [], 0⟩).2).length = 1 ∧
    ((runSwipes demoDeck demoEvents ⟨0, [], 0⟩).2).map SwipeRating.imageId =
      [(demoImage 9).id] ∧
    demoEvents.length = 10 := by
  decide

/-- Claim C9: if a committed swipe arrives while no item exists at the
current index, `handleSwipeComplete` returns early: no Decision is
constructed or emitted, and the whole state (rating batch, current index,
swipe counter) is unchanged. -/
theorem c9_missing_item_guard (images : List ImageData)
    (direction : Direction) (velocity : ℚ) (swipeStartTime swipeEndTime : ℤ)
    (s : DeckState) (h : images.length ≤ s.currentIndex) :
    handleSwipeComplete images direction velocity swipeStartTime swipeEndTime s
      = (s, []) := by
  unfold handleSwipeComplete
  rw [List.getElem?_eq_none h]

/-- Claim C9 witness: the guard at a concrete input — empty deck, index 0. -/
theorem c9_missing_item_guard_witness :
    handleSwipeComplete [] Direction.right 5 0 1 ⟨0, [], 0⟩ = (⟨0, [], 0⟩, []) :=
  c9_missing_item_guard [] Direction.right 5 0 1 ⟨0, [], 0⟩ (by decide)

/-- Claim C10: after every append step on the rating batch the stored batch
is strictly shorter than the threshold of 10 — whenever the append would
make the length reach 10 the stored buffer becomes empty in that same
step — so the retained batch never holds 10 or more Decisions. -/
theorem c10_batch_length_bound (prev : List SwipeRating)
    (rating : SwipeRating) :
    ((batchStep prev rating).1).length < 10 ∧
    (9 ≤ prev.length → (batchStep prev rating).1 = []) := by
  unfold batchStep
  by_cases h : 10 ≤ (prev ++ [rating]).length
  · rw [if_pos h]
    exact ⟨by simp, fun _ => rfl⟩
  · rw [if_neg h]
    simp only [List.length_append, List.length_cons, List.length_nil] at h ⊢
    exact ⟨by omega, fun h9 => absurd (by omega) h⟩

/-- Claim C10 witness: appending to a batch of nine ratings empties the
stored buffer. -/
theorem c10_batch_length_bound_witness :
    (batchStep (List.replicate 9 demoRating) demoRating).1 = [] :=
  (c10_batch_length_bound (List.replicate 9 demoRating) demoRating).2 (by decide)

/-- Claim C2 counterexample: the claim asserts a Decision whenever
`|dx| ≥ threshold`, but the commit test in the code is strict
(`Math.abs(translationX) > SWIPE_THRESHOLD`).  With screen width 4 the
threshold is 1; a release at `dx = 1` satisfies `|dx| ≥ threshold` yet emits
no Decision and snaps the card back to the identity transform. -/
theorem c2_threshold_is_strict :
    SWIPE_THRESHOLD 4 ≤ |(1 : ℚ)| ∧
    (panGestureOnEnd 4 ⟨1, 0, 0⟩).1 = none ∧
    (panGestureOnEnd 4 ⟨1, 0, 0⟩).2 = identityTransform := by
  refine ⟨by norm_num [SWIPE_THRESHOLD], ?_, ?_⟩ <;>
    norm_num [panGestureOnEnd, SWIPE_THRESHOLD, jsAbs]

/-- Claim C2 as amended: on a gesture release with `|dx|` strictly greater
than the swipe threshold, exactly one decision is emitted and its direction
is right for positive `dx` and left for negative `dx`; when `|dx| ≤
threshold` (at the threshold included) no decision is emitted and the
transform targets of the card return to the identity. -/
theorem c2_release_decision_rule (screenWidth : ℚ) (e : GestureEndEvent) :
    (SWIPE_THRESHOLD screenWidth < |e.translationX| →
      (panGestureOnEnd screenWidth e).1 =
        some (signDirection e.translationX, e.velocityX) ∧
      (e.translationX < 0 → signDirection e.translationX = Direction.left) ∧
      (0 < e.translationX → signDirection e.translationX = Direction.right)) ∧
    (|e.translationX| ≤ SWIPE_THRESHOLD screenWidth →
      (panGestureOnEnd screenWidth e).1 = none ∧
      (panGestureOnEnd screenWidth e).2 = identityTransform) := by
  unfold panGestureOnEnd signDirection
  rw [jsAbs_eq_abs]
  constructor
  · intro h
    rw [if_pos h]
    refine ⟨rfl, fun hneg => ?_, fun hpos => ?_⟩
    · rw [if_neg (not_lt.mpr hneg.le)]
    · rw [if_pos hpos]
  · intro h
    rw [if_neg (not_lt.mpr h)]
    exact ⟨rfl, rfl⟩

/-- Claim C2 witness: a concrete committed release, `dx = 2` on a screen of
width 4 (threshold 1), emits exactly the decision `(right, velocity 7)`. -/
theorem c2_release_decision_rule_witness :
    (panGestureOnEnd 4 ⟨2, 0, 7⟩).1 = some (signDirection 2, 7) :=
  ((c2_release_decision_rule 4 ⟨2, 0, 7⟩).1
    (by norm_num [SWIPE_THRESHOLD])).1

/-- Claim C3 counterexample: the claim says the drop of the remaining
buffer from 12 to 9 under low-water mark 10 fires exactly one signal, and
none again before replenishment.  With a 12-image deck the effect trace for
`currentIndex = 0, 1, 2, 3` (remaining 12, 11, 10, 9) fires twice — the
guard `images.length - currentIndex <= 10` already holds at remaining 10 —
and a further advance to remaining 8, with no replenishment, fires a third
time. -/
theorem c3_signal_fires_repeatedly :
    needMoreSignals 12 [0, 1, 2, 3] = 2 ∧
    needMoreSignals 12 [0, 1, 2, 3] ≠ 1 ∧
    needMoreSignals 12 [0, 1, 2, 3, 4] = 3 := by
  decide

/-- Claim C3 as amended: the low-buffer effect has no latch — its guard
holds exactly when the remaining buffer `images.length - currentIndex` is
at most 10, so once it holds at some index it holds at every later index
for the same deck length, and the signal re-fires on every subsequent
effect run until the deck is replenished. -/
theorem c3_no_latch (imagesLen i j : ℕ) (hij : i ≤ j)
    (h : needMoreTrigger imagesLen i = true) :
    needMoreTrigger imagesLen j = true := by
  unfold needMoreTrigger at *
  rw [decide_eq_true_iff] at *
  omega

/-- Claim C3 witness: with deck length 12, the trigger at index 2
(remaining 10) propagates to index 5 (remaining 7). -/
theorem c3_no_latch_witness : needMoreTrigger 12 5 = true :=
  c3_no_latch 12 2 5 (by decide) (by decide)

/-- Claim C8 counterexample: the claim says the current index never
decreases, but `onSwipeComplete` in
rapid-studio-clean/components/SwipeDeck.tsx resets the index to 0 on the
last card: with a 5-image deck, a committed swipe at index 4 moves the
index to 0 — a strict decrease, after which cards are re-shown. -/
theorem c8_clean_deck_index_resets :
    nextIndexClean 5 4 = 0 ∧ nextIndexClean 5 4 < 4 := by
  decide

/-- Claim C8 as amended: the part_009 deck index strictly increases on every
committed swipe; the rapid-studio-clean deck index strictly increases while
the current card is not the last, but on the last card it resets to 0 and
the deck is re-shown. -/
theorem c8_index_advance (imagesLen i : ℕ) (h : i + 1 < imagesLen) :
    i < advanceIndexP009 i ∧
    nextIndexClean imagesLen i = i + 1 ∧
    nextIndexClean imagesLen (imagesLen - 1) = 0 := by
  refine ⟨Nat.lt_succ_self i, ?_, ?_⟩
  · unfold nextIndexClean
    rw [if_pos (by omega)]
  · unfold nextIndexClean
    rw [if_neg (by omega)]

/-- Claim C8 witness: with a 5-image deck, a committed swipe at index 2
advances both decks to index 3, and the clean deck resets at index 4. -/
theorem c8_index_advance_witness :
    2 < advanceIndexP009 2 ∧ nextIndexClean 5 2 = 2 + 1 ∧
    nextIndexClean 5 (5 - 1) = 0 :=
  c8_index_advance 5 2 (by decide)

/-- Claim C4 counterexample: the claim subtracts already-cached items from
the prefetch window, but `aggressivePrefetch` keeps no cache bookkeeping
and issues a prefetch for every item of the window.  With a one-image deck
whose only image is already cached, the code still prefetches it while the
spec-worded set is empty. -/
theorem c4_cached_item_still_prefetched :
    prefetchOrder [imgA] 0 50 = [imgA] ∧
    specPrefetchSet [imgA] 0 50 ["a"] = [] ∧
    prefetchOrder [imgA] 0 50 ≠ specPrefetchSet [imgA] 0 50 ["a"] := by
  refine ⟨?_, by decide, ?_⟩ <;>
    simp [prefetchOrder, jsSlice, List.mergeSort, specPrefetchSet, imgA]

/-- Claim C4 as amended: the list of items for which prefetch is issued is
exactly (a permutation of) the lookahead window
`[currentIndex, min(length, currentIndex+N))` of the deck, with no
cache-based exclusion, and every prefetched item sits at a deck position
inside `[currentIndex, currentIndex+N)` — nothing outside the window is
fetched speculatively. -/
theorem c4_prefetch_window_exact (images : List ImageData)
    (currentIndex N : ℕ) :
    List.Perm (prefetchOrder images currentIndex N)
      (jsSlice images currentIndex (min images.length (currentIndex + N))) ∧
    ∀ img ∈ prefetchOrder images currentIndex N,
      ∃ k, currentIndex ≤ k ∧ k < currentIndex + N ∧ images[k]? = some img := by
  constructor
  · exact List.mergeSort_perm _ _
  · intro img hmem
    unfold prefetchOrder at hmem
    have h1 := List.mem_mergeSort.mp hmem
    unfold jsSlice at h1
    obtain ⟨n, hn⟩ := List.mem_iff_getElem?.mp h1
    rw [List.getElem?_drop] at hn
    obtain ⟨hlt, heq⟩ := List.getElem?_eq_some.mp hn
    rw [List.length_take] at hlt
    rw [List.getElem?_take_of_lt (by omega)] at hn
    exact ⟨currentIndex + n, Nat.le_add_right _ _, by omega, hn⟩

/-- Claim C4 witness: on a one-image deck with window size 50 the single
prefetched item sits at deck position 0, inside the window. -/
theorem c4_prefetch_window_exact_witness :
    ∃ k, 0 ≤ k ∧ k < 0 + 50 ∧ [imgA][k]? = some imgA :=
  (c4_prefetch_window_exact [imgA] 0 50).2 imgA
    (by simp [prefetchOrder, jsSlice, List.mergeSort])

/-- Claim C5: the prefetch requests of `aggressivePrefetch` are issued in
an order sorted by tier rank, most personalized first — every earlier item
of the issued list has tier priority at least that of every later item
(personal = 3 before demographic = 2 before universal = 1) — and the
issued list is a permutation of the lookahead window, not the window in
deck order. -/
theorem c5_prefetch_sorted_by_tier (images : List ImageData)
    (currentIndex N : ℕ) :
    (prefetchOrder images currentIndex N).Pairwise
      (fun a b => tierPriority b.tier ≤ tierPriority a.tier) ∧
    List.Perm (prefetchOrder images currentIndex N)
      (jsSlice images currentIndex (min images.length (currentIndex + N))) := by
  constructor
  · have h : (List.mergeSort
        (jsSlice images currentIndex (min images.length (currentIndex + N)))
        tierGE).Pairwise (fun a b => tierGE a b = true) :=
      List.sorted_mergeSort
        (fun a b c hab hbc => by
          unfold tierGE at hab hbc ⊢
          rw [decide_eq_true_iff] at hab hbc ⊢
          omega)
        (fun a b => by
          unfold tierGE
          rw [Bool.or_eq_true, decide_eq_true_iff, decide_eq_true_iff]
          exact le_total _ _)
        _
    exact h.imp (fun hab => by rwa [tierGE, decide_eq_true_iff] at hab)
  · exact List.mergeSort_perm _ _

/-- Claim C6 counterexample: the claim says the rotation is clamped to ±30
whenever `|dx|` exceeds the screen width, but part_009 calls `interpolate`
with no extrapolation config (default EXTEND): at screen width 400 and
`dx = 800` the rotation is 60 degrees, not 30. -/
theorem c6_rotation_not_clamped_in_p009 :
    rotationP009 400 800 = 60 ∧ (60 : ℚ) ≠ 30 ∧ (400 : ℚ) < |(800 : ℚ)| := by
  refine ⟨?_, by norm_num, by norm_num⟩
  norm_num [rotationP009, interpolateSeg]

/-- Claim C6 as amended: for positive screen width `W`, the part_009 rotation
is the unclamped linear interpolation `30 * dx / W` — it extends linearly
past ±30 when `|dx| > W` — while the rotation of the rapid-studio-clean
component (which passes `Extrapolate.CLAMP`) equals the same interpolation
clamped to the interval [−30, 30]. -/
theorem c6_rotation_interpolation (screenWidth x : ℚ)
    (hW : 0 < screenWidth) :
    rotationP009 screenWidth x = 30 * x / screenWidth ∧
    rotationClean screenWidth x =
      max (-30) (min 30 (30 * x / screenWidth)) := by
  have hne : screenWidth ≠ 0 := ne_of_gt hW
  constructor
  · unfold rotationP009 interpolateSeg
    by_cases hx : x < 0
    · rw [if_pos hx]
      field_simp
      ring
    · rw [if_neg hx]
      field_simp
      ring
  · unfold rotationClean interpolateSeg
    rcases le_or_lt x (-screenWidth) with h1 | h1
    · rw [if_pos h1]
      have hv : 30 * x / screenWidth ≤ -30 := by
        rw [div_le_iff₀ hW]
        nlinarith
      rw [min_eq_right (le_trans hv (by norm_num)), max_eq_left hv]
    · rw [if_neg (not_le.mpr h1)]
      rcases le_or_lt screenWidth x with h2 | h2
      · rw [if_pos h2]
        have hv : (30 : ℚ) ≤ 30 * x / screenWidth := by
          rw [le_div_iff₀ hW]
          nlinarith
        rw [min_eq_left hv, max_eq_right (by norm_num : (-30 : ℚ) ≤ 30)]
      · rw [if_neg (not_le.mpr h2)]
        have hvlt : 30 * x / screenWidth < 30 := by
          rw [div_lt_iff₀ hW]
          nlinarith
        have hvgt : (-30 : ℚ) < 30 * x / screenWidth := by
          rw [lt_div_iff₀ hW]
          nlinarith
        rw [min_eq_right hvlt.le, max_eq_right hvgt.le]
        field_simp
        ring

/-- Claim C6 witness: at screen width 4 and displacement 8 the amended
formulas evaluate concretely. -/
theorem c6_rotation_interpolation_witness :
    rotationP009 4 8 = 30 * 8 / 4 ∧
    rotationClean 4 8 = max (-30) (min 30 (30 * 8 / 4)) :=
  c6_rotation_interpolation 4 8 (by norm_num)

/-- Claim C7: the rating of every committed swipe carries
`swipeVelocity = |velocity|` and `confidence = min 1 (|velocity| / 1000)`
(calibration constant 1000), and the confidence always lies in [0, 1]. -/
theorem c7_confidence_bounded (currentImage : ImageData)
    (direction : Direction) (velocity : ℚ)
    (swipeStartTime swipeEndTime : ℤ) :
    (mkSwipeRating currentImage direction velocity swipeStartTime
        swipeEndTime).swipeVelocity = |velocity| ∧
    (mkSwipeRating currentImage direction velocity swipeStartTime
        swipeEndTime).confidence = min 1 (|velocity| / 1000) ∧
    0 ≤ (mkSwipeRating currentImage direction velocity swipeStartTime
        swipeEndTime).confidence ∧
    (mkSwipeRating currentImage direction velocity swipeStartTime
        swipeEndTime).confidence ≤ 1 := by
  refine ⟨?_, ?_, ?_, ?_⟩
  · simp [mkSwipeRating, jsAbs_eq_abs]
  · simp only [mkSwipeRating, jsAbs_eq_abs]
    rw [min_comm, min_def]
  · simp only [mkSwipeRating, jsAbs_eq_abs]
    by_cases h : |velocity| / 1000 ≤ 1
    · rw [if_pos h]
      positivity
    · rw [if_neg h]
      norm_num
  · simp only [mkSwipeRating, jsAbs_eq_abs]
    by_cases h : |velocity| / 1000 ≤ 1
    · rw [if_pos h]
      exact h
    · rw [if_neg h]
